import Mathlib

/-!
Verification of the Velocity AI frontend session and conversation
synchronization layer: a shallow embedding of the API client
(src/lib/api.ts), the mode context (ModeContext), and the auth context
stub (AuthContext.tsx), with theorems settling the specified properties.

Browser storage (localStorage / sessionStorage) is modelled as a total
map from keys to optional string values.  JSON.parse is modelled as an
explicit parameter (a function from raw strings to optional parsed
values), since the embedding does not re-implement a JSON parser; every
theorem quantifies over that parameter, and witnesses instantiate it
with concrete parse functions.
-/

namespace VelocityAI

/-- A browser key-value store: localStorage or sessionStorage. -/
abbrev Store := String → Option String

/-- Store with no entries: getItem returns null on every key. -/
def Store.empty : Store := fun _ => none

/-- setItem: writes value v at key k. -/
def Store.set (s : Store) (k v : String) : Store :=
  fun k2 => if k2 = k then some v else s k2

/-- removeItem: deletes key k. -/
def Store.remove (s : Store) (k : String) : Store :=
  fun k2 => if k2 = k then none else s k2

/-- APP_CONFIG.storageKeys.user in app.config.ts. -/
def userStorageKey : String := "velocity_ai_user"

/-- JavaScript string truthiness as used on getItem results: null and
the empty string are falsy, every other string is truthy. -/
def truthyStr : Option String → Option String
  | some "" => none
  | some s => some s
  | none => none

/-- What getAuthToken observes of a JSON.parse result: the token field
of the parsed value when the parse and the member access succeed (none
models a missing, null or otherwise absent token field). -/
structure ParsedUser where
  token : Option String
deriving DecidableEq, Repr

/-- The behavior of JSON.parse on stored user payloads: none models a
parse that throws (caught by the try/catch in getAuthToken). -/
abbrev JsonEnv := String → Option ParsedUser

/-- getAuthToken from src/lib/api.ts lines 64-86: reads the user key
from localStorage; when that getItem result is truthy, JSON.parse is
attempted and the token field (or null) is returned, with any exception
mapped to null by the surrounding try/catch; only when the localStorage
result is falsy does the same procedure run against sessionStorage. -/
def getAuthToken (parse : JsonEnv) (localStore sessionStore : Store) : Option String :=
  match truthyStr (localStore userStorageKey) with
  | some localUser =>
    match parse localUser with
    | some parsed => truthyStr parsed.token
    | none => none
  | none =>
    match truthyStr (sessionStore userStorageKey) with
    | some sessionUser =>
      match parse sessionUser with
      | some parsed => truthyStr parsed.token
      | none => none
    | none => none

/-- User record from src/lib/api.ts lines 13-19. -/
structure User where
  id : Nat
  email : String
  name : Option String
  token : Option String
  created_at : Option String
deriving DecidableEq, Repr

/-- UserUpdate from src/lib/api.ts lines 146-150. -/
structure UserUpdate where
  email : Option String
  password : Option String
  name : Option String
deriving DecidableEq, Repr

/-- DEFAULT_USER from AuthContext.tsx lines 28-34; the created_at field
is the current clock reading, passed in explicitly. -/
def DEFAULT_USER (now : String) : User :=
  { id := 1
  , email := "user@velocity.ai"
  , name := some "Velocity User"
  , token := some "local-dev"
  , created_at := some now }

/-- The two credential backing stores as one state. -/
structure AuthStores where
  localStore : Store
  sessionStore : Store

/-- The value object built by AuthProvider (AuthContext.tsx lines
36-48).  The auth system is a no-op stub: login, signup and
updateProfile resolve to DEFAULT_USER without touching the stores, and
logout is the empty function.  Store state is threaded explicitly to
make the absence of writes provable. -/
structure AuthContextValue where
  user : Option User
  isLoading : Bool
  isAuthenticated : Bool
  login : String → String → Bool → AuthStores → User × AuthStores
  signup : String → String → Option String → AuthStores → User × AuthStores
  updateProfile : UserUpdate → AuthStores → User × AuthStores
  logout : AuthStores → AuthStores

/-- The value AuthProvider supplies (AuthContext.tsx lines 37-45). -/
def authProviderValue (now : String) : AuthContextValue :=
  { user := some (DEFAULT_USER now)
  , isLoading := false
  , isAuthenticated := true
  , login := fun _ _ _ st => (DEFAULT_USER now, st)
  , signup := fun _ _ _ st => (DEFAULT_USER now, st)
  , updateProfile := fun _ st => (DEFAULT_USER now, st)
  , logout := fun st => st }

/-- A concrete JSON environment for witnesses: the payload "good"
parses to a value with token "t", everything else fails to parse. -/
def demoParse : JsonEnv := fun s => if s = "good" then some ⟨some "t"⟩ else none

/-- A store whose user slot holds a payload that fails to parse. -/
def storeWithBad : Store := Store.set Store.empty userStorageKey "bad"

/-- A store whose user slot holds a payload parsing to token "t". -/
def storeWithGood : Store := Store.set Store.empty userStorageKey "good"

/-- Error body shape from src/lib/api.ts lines 29-32 (ApiError): the
detail field as observed after JSON.parse (none when the parsed value
lacks a string detail field), plus the optional machine-readable
error_code. -/
structure ErrBody where
  detail : Option String
  error_code : Option String
deriving DecidableEq, Repr

/-- The transport outcome of one fetch call: either the promise rejects
(network unreachable and similar), or a response with a status and a
raw body arrives. -/
inductive FetchResult where
  | networkError (msg : String)
  | response (status : Nat) (body : String)
deriving DecidableEq, Repr

/-- An exception apiRequest does not construct itself: the raw fetch
rejection, or the rejection of response.json() on the success path. -/
inductive JsException where
  | network (msg : String)
  | decodeFailure (body : String)
deriving DecidableEq, Repr

/-- What a call to apiRequest can produce: a decoded value, the
no-content sentinel for status 204 (undefined as T in the source), a
thrown Error built by apiRequest itself carrying a message, or a raw
exception propagating uncaught past apiRequest. -/
inductive ApiOutcome (α : Type) where
  | value (v : α)
  | noContent
  | thrown (message : String)
  | raw (e : JsException)
deriving DecidableEq, Repr

/-- Whether an outcome is the normalized thrown-Error shape apiRequest
itself constructs (as opposed to a value, the sentinel, or a raw
uncaught exception). -/
def isThrownMessage {α : Type} : ApiOutcome α → Bool
  | .thrown _ => true
  | _ => false

/-- response.ok: the status is in the 2xx range. -/
def responseOk (status : Nat) : Bool := decide (200 ≤ status ∧ status ≤ 299)

/-- The message of new Error(error.detail): the detail string when
present, the empty string when the detail field is absent (new Error of
undefined leaves the message empty). -/
def errDetailMessage (e : ErrBody) : String :=
  match e.detail with
  | some d => d
  | none => ""

/-- The fallback detail synthesized from the transport status in the
catch branch of response.json() on the failure path. -/
def statusFallback (status : Nat) : String :=
  "Request failed with status " ++ toString status

/-- apiRequest from src/lib/api.ts lines 88-120, outcome part.  The
body decoders are explicit parameters: dec models response.json()
followed by the cast to T on the success path (none when the promise
rejects), parseErr models response.json() read as ApiError on the
failure path (none when it rejects, which the source catches by
substituting an object whose detail is synthesized from the status).
There is no try/catch around fetch or around the success-path json(),
so those two failures surface as raw exceptions. -/
def apiRequest {α : Type} (dec : String → Option α)
    (parseErr : String → Option ErrBody) : FetchResult → ApiOutcome α
  | .networkError m => .raw (.network m)
  | .response status body =>
    if !responseOk status then
      .thrown (errDetailMessage
        (match parseErr body with
         | some e => e
         | none => { detail := some (statusFallback status), error_code := none }))
    else if status = 204 then
      .noContent
    else
      match dec body with
      | some v => .value v
      | none => .raw (.decodeFailure body)

/-- The header map of one request: header names to values. -/
abbrev HeaderMap := String → Option String

/-- Header map with no entries. -/
def emptyHeaders : HeaderMap := fun _ => none

/-- The headers object literal in apiRequest lines 94-97: Content-Type
application/json, then the spread of options.headers (caller headers
win over the Content-Type default). -/
def baseHeaders (optHeaders : HeaderMap) : HeaderMap :=
  fun k =>
    match optHeaders k with
    | some v => some v
    | none => if k = "Content-Type" then some "application/json" else none

/-- Lines 99-101: when the token is truthy the Authorization header is
assigned Bearer token on top of the base headers; otherwise the headers
are left as built. -/
def requestHeaders (optHeaders : HeaderMap) (token : Option String) : HeaderMap :=
  match token with
  | some t => fun k =>
      if k = "Authorization" then some ("Bearer " ++ t) else baseHeaders optHeaders k
  | none => baseHeaders optHeaders

/-- The headers apiRequest actually sends: requestHeaders applied to
the result of getAuthToken (line 92). -/
def apiRequestHeaders (parse : JsonEnv) (ls ss : Store) (optHeaders : HeaderMap) :
    HeaderMap :=
  requestHeaders optHeaders (getAuthToken parse ls ss)

/-- AppMode from ModeContext: the two operating contexts. -/
inductive AppMode where
  | personal
  | workspace
deriving DecidableEq, Repr

/-- MODE_STORAGE_KEY from ModeContext line 23. -/
def MODE_STORAGE_KEY : String := "velocity_ai_mode"

/-- The string persisted for a mode (the enum members are their own
wire representation). -/
def modeString : AppMode → String
  | .personal => "personal"
  | .workspace => "workspace"

/-- getStoredMode from ModeContext lines 25-29: reads the mode key from
localStorage; returns the stored value when it is exactly workspace or
personal, and personal in every other case. -/
def getStoredMode (localStore : Store) : AppMode :=
  match localStore MODE_STORAGE_KEY with
  | some s =>
      if s = "workspace" then AppMode.workspace
      else if s = "personal" then AppMode.personal
      else AppMode.personal
  | none => AppMode.personal

/-- The state held by ModeProvider: the in-memory mode value plus the
localStorage it persists to. -/
structure ModeState where
  mode : AppMode
  storage : Store

/-- setMode from ModeProvider lines 34-37: updates the held state and
persists the mode string under the mode key.  It is a pure state
transformer: no network channel appears in its type. -/
def setMode (st : ModeState) (newMode : AppMode) : ModeState :=
  { mode := newMode
  , storage := Store.set st.storage MODE_STORAGE_KEY (modeString newMode) }

/-- Conversation record from src/lib/api.ts lines 34-40. -/
structure Conversation where
  id : Nat
  title : String
  owner_id : Nat
  created_at : String
  updated_at : Option String
deriving DecidableEq, Repr

/-- Message role. -/
inductive Role where
  | user
  | assistant
deriving DecidableEq, Repr

/-- A message as held in the synchronizer state: role, owning
conversation and content (ids and timestamps are assigned by the
server and are not needed to state the claims). -/
structure Msg where
  conversation_id : Nat
  role : Role
  content : String
deriving DecidableEq, Repr

/-- Chat response shape from src/lib/api.ts lines 21-27, with the
conversation id taken as numeric per the Conversation record (the
source shows the id type drifting between string and number; the spec
flags this as an open question and the data model makes the server-
assigned Conversation id numeric). -/
structure ChatResponsePayload where
  response : String
  conversation_id : Nat
  requires_approval : Bool
  sources : List String
deriving DecidableEq, Repr

/-- One remote call issued by the synchronizer, mirroring the api.ts
wrappers createConversation (user_id, optional title) and
sendChatMessage (message, mode, optional conversation id). -/
inductive RemoteCall where
  | createConversation (user_id : Nat) (title : Option String)
  | chat (message : String) (mode : String) (conversation_id : Option Nat)
deriving DecidableEq, Repr

/-- The in-memory model owned by the synchronizer. -/
structure SyncState where
  conversations : List Conversation
  messages : List Msg
  activeConversationId : Option Nat
deriving DecidableEq, Repr

/-- Modelled from the spec: the ConversationSynchronizer send operation
of section 4.3 — the chat page sendMessage orchestration is not among
the source files, only its api.ts callees are.  Success path, steps 1
to 3: when no conversation is active, a create-conversation call is
issued first with the title omitted and its returned id is adopted as
the target of the chat call; the chat call is then issued with the
resolved id and the current mode; on success the user message and the
assistant-derived message are appended, attached to the conversation id
the server returned in the chat response.  The successful server
responses are passed in explicitly; the function returns the updated
state together with the remote calls issued, in order. -/
def syncSend (userId : Nat) (userText mode : String)
    (createResp : Conversation) (chatResp : ChatResponsePayload)
    (st : SyncState) : SyncState × List RemoteCall :=
  match st.activeConversationId with
  | none =>
      let finalId := chatResp.conversation_id
      ({ conversations := st.conversations ++ [createResp]
       , messages := st.messages ++
           [ { conversation_id := finalId, role := Role.user, content := userText }
           , { conversation_id := finalId, role := Role.assistant
             , content := chatResp.response } ]
       , activeConversationId := some finalId }
      , [ RemoteCall.createConversation userId none
        , RemoteCall.chat userText mode (some createResp.id) ])
  | some cid =>
      let finalId := chatResp.conversation_id
      ({ conversations := st.conversations
       , messages := st.messages ++
           [ { conversation_id := finalId, role := Role.user, content := userText }
           , { conversation_id := finalId, role := Role.assistant
             , content := chatResp.response } ]
       , activeConversationId := some finalId }
      , [ RemoteCall.chat userText mode (some cid) ])

/-- The concrete create response of the claim: conversation id 42. -/
def conv42 : Conversation :=
  { id := 42, title := "New conversation", owner_id := 1
  , created_at := "2026-01-01T00:00:00Z", updated_at := none }

/-- The concrete chat response of the claim: conversation id 42,
response text hi. -/
def chatResp42 : ChatResponsePayload :=
  { response := "hi", conversation_id := 42, requires_approval := false
  , sources := [] }

/-!  Theorems.  -/

/-- Claim C2, counterexample: with a malformed payload in the
remember-store and a valid credential in the session-store, resolve
returns absent instead of the session credential — the catch branch in
getAuthToken returns null without ever consulting sessionStorage, so a
malformed remember-store entry does not let a valid session-store
credential resolve, contrary to the claim.  The second conjunct shows
the session credential is otherwise perfectly resolvable. -/
theorem getAuthToken_malformed_blocks_session :
    getAuthToken demoParse storeWithBad storeWithGood = none ∧
    getAuthToken demoParse Store.empty storeWithGood = some "t" := by
  constructor <;> decide

/-- Claim C2, amended: resolve reads the remember-store first; when the
remember slot is truthy, its parse outcome alone decides the result (a
malformed or token-less payload yields absent without consulting the
session-store); only when the remember slot is absent or empty is the
session-store read, under the same parse rule; when both slots are
falsy the result is absent.  Resolve is a total function: it never
throws. -/
theorem getAuthToken_precedence (parse : JsonEnv) (ls ss : Store) :
    (∀ s, truthyStr (ls userStorageKey) = some s → parse s = none →
        getAuthToken parse ls ss = none) ∧
    (∀ s p, truthyStr (ls userStorageKey) = some s → parse s = some p →
        getAuthToken parse ls ss = truthyStr p.token) ∧
    (∀ s, truthyStr (ls userStorageKey) = none →
        truthyStr (ss userStorageKey) = some s → parse s = none →
        getAuthToken parse ls ss = none) ∧
    (∀ s p, truthyStr (ls userStorageKey) = none →
        truthyStr (ss userStorageKey) = some s → parse s = some p →
        getAuthToken parse ls ss = truthyStr p.token) ∧
    (truthyStr (ls userStorageKey) = none →
        truthyStr (ss userStorageKey) = none →
        getAuthToken parse ls ss = none) := by
  refine ⟨?_, ?_, ?_, ?_, ?_⟩
  · intro s h hp; simp [getAuthToken, h, hp]
  · intro s p h hp; simp [getAuthToken, h, hp]
  · intro s h h2 hp; simp [getAuthToken, h, h2, hp]
  · intro s p h h2 hp; simp [getAuthToken, h, h2, hp]
  · intro h h2; simp [getAuthToken, h, h2]

/-- Witness for getAuthToken_precedence at a concrete input. -/
theorem getAuthToken_precedence_witness :
    truthyStr (storeWithBad userStorageKey) = some "bad" ∧
    demoParse "bad" = none ∧
    getAuthToken demoParse storeWithBad storeWithGood = none :=
  ⟨by decide, by decide,
    (getAuthToken_precedence demoParse storeWithBad storeWithGood).1 "bad"
      (by decide) (by decide)⟩

/-- Claim C3, counterexample: logout (the clear operation) is a no-op,
so with a credential parsing to token "t" sitting in the remember-store,
resolve after logout still yields that credential instead of absent;
and login with remember true (the persist operation) writes nothing, so
resolve after persisting a credential into empty stores yields absent
instead of the credential. -/
theorem persist_clear_roundtrip_fails :
    (getAuthToken demoParse
        ((authProviderValue "2026-01-01").logout ⟨storeWithGood, Store.empty⟩).localStore
        ((authProviderValue "2026-01-01").logout ⟨storeWithGood, Store.empty⟩).sessionStore
      = some "t") ∧
    (getAuthToken demoParse
        ((authProviderValue "2026-01-01").login "e@x.com" "pw" true
            ⟨Store.empty, Store.empty⟩).2.localStore
        ((authProviderValue "2026-01-01").login "e@x.com" "pw" true
            ⟨Store.empty, Store.empty⟩).2.sessionStore
      = none) := by
  constructor <;> decide

/-- Claim C3, amended: the auth context is a no-op stub — login (with
either remember flag) and logout leave both backing stores exactly
unchanged, so resolve after login or after logout yields exactly what
it yielded before, independent of the credential passed in; in
particular resolve after logout is absent only when it was already
absent. -/
theorem auth_ops_leave_stores (now email password : String) (rememberMe : Bool)
    (parse : JsonEnv) (st : AuthStores) :
    ((authProviderValue now).login email password rememberMe st).2 = st ∧
    (authProviderValue now).logout st = st ∧
    getAuthToken parse ((authProviderValue now).logout st).localStore
        ((authProviderValue now).logout st).sessionStore
      = getAuthToken parse st.localStore st.sessionStore ∧
    getAuthToken parse
        ((authProviderValue now).login email password rememberMe st).2.localStore
        ((authProviderValue now).login email password rememberMe st).2.sessionStore
      = getAuthToken parse st.localStore st.sessionStore :=
  ⟨rfl, rfl, rfl, rfl⟩

/-- Claim C10: the authentication surface is a pure constant — login,
signup and updateProfile all resolve to the fixed default user (id 1,
email user@velocity.ai, token local-dev) whatever their arguments and
whatever the store contents, none of them touches either store, logout
leaves the stores unchanged, and isAuthenticated is constantly true. -/
theorem auth_surface_constant (now email password : String) (rememberMe : Bool)
    (name : Option String) (data : UserUpdate) (st : AuthStores) :
    ((authProviderValue now).login email password rememberMe st).1 = DEFAULT_USER now ∧
    ((authProviderValue now).signup email password name st).1 = DEFAULT_USER now ∧
    ((authProviderValue now).updateProfile data st).1 = DEFAULT_USER now ∧
    ((authProviderValue now).login email password rememberMe st).2 = st ∧
    ((authProviderValue now).signup email password name st).2 = st ∧
    ((authProviderValue now).updateProfile data st).2 = st ∧
    (authProviderValue now).logout st = st ∧
    (authProviderValue now).isAuthenticated = true ∧
    (DEFAULT_USER now).id = 1 ∧
    (DEFAULT_USER now).email = "user@velocity.ai" ∧
    (DEFAULT_USER now).token = some "local-dev" :=
  ⟨rfl, rfl, rfl, rfl, rfl, rfl, rfl, rfl, rfl, rfl, rfl⟩

/-- Claim C1, counterexample: a network failure (fetch rejecting) is
not converted into the normalized thrown-Error shape — apiRequest has
no try/catch around fetch, so the raw exception propagates past its
boundary, contrary to the claim that every failure converges on one
NormalizedError and nothing else escapes. -/
theorem apiRequest_network_uncaught :
    apiRequest (fun _ => (none : Option Unit)) (fun _ => none)
        (FetchResult.networkError "Failed to fetch")
      = ApiOutcome.raw (JsException.network "Failed to fetch") ∧
    isThrownMessage (apiRequest (fun _ => (none : Option Unit)) (fun _ => none)
        (FetchResult.networkError "Failed to fetch")) = false :=
  ⟨rfl, rfl⟩

/-- Claim C1, amended: only the non-2xx path is normalized.  A non-2xx
response always surfaces as a thrown Error carrying a human-readable
message (the parsed detail, or a message synthesized from the status);
the optional machine-readable error_code of the parsed body is
discarded (the thrown message depends only on the detail field).  A
network failure, and a 2xx body that fails to decode, propagate as raw
exceptions past apiRequest. -/
theorem apiRequest_failure_channels {α : Type} (dec : String → Option α)
    (parseErr : String → Option ErrBody) (status : Nat) (body m : String) :
    (responseOk status = false →
        apiRequest dec parseErr (FetchResult.response status body)
          = ApiOutcome.thrown (errDetailMessage
              (match parseErr body with
               | some e => e
               | none => { detail := some (statusFallback status), error_code := none }))) ∧
    apiRequest dec parseErr (FetchResult.networkError m)
      = ApiOutcome.raw (JsException.network m) ∧
    (responseOk status = true → status ≠ 204 → dec body = none →
        apiRequest dec parseErr (FetchResult.response status body)
          = ApiOutcome.raw (JsException.decodeFailure body)) := by
  refine ⟨?_, rfl, ?_⟩
  · intro h; simp [apiRequest, h]
  · intro h h204 hdec; simp [apiRequest, h, h204, hdec]

/-- Witness for apiRequest_failure_channels at a concrete input. -/
theorem apiRequest_failure_channels_witness :
    responseOk 500 = false ∧
    responseOk 200 = true ∧ (200 ≠ 204) ∧
    ((fun _ => (none : Option Unit)) "garbage" = none) ∧
    apiRequest (fun _ => (none : Option Unit)) (fun _ => none)
        (FetchResult.response 500 "oops")
      = ApiOutcome.thrown (statusFallback 500) ∧
    apiRequest (fun _ => (none : Option Unit)) (fun _ => none)
        (FetchResult.response 200 "garbage")
      = ApiOutcome.raw (JsException.decodeFailure "garbage") :=
  ⟨by decide, by decide, by decide, rfl,
    ((apiRequest_failure_channels (fun _ => (none : Option Unit)) (fun _ => none)
        500 "oops" "m").1 (by decide)),
    ((apiRequest_failure_channels (fun _ => (none : Option Unit)) (fun _ => none)
        200 "garbage" "m").2.2 (by decide) (by decide) rfl)⟩

/-- Claim C5: the Authorization Bearer header is attached iff
credential resolution (getAuthToken) yields a token — provided the
caller did not pass an Authorization header of its own, which no caller
in the repository does — and when no credential resolves the request
goes out with exactly the base headers; headers other than
Authorization are the same in both cases. -/
theorem apiRequest_auth_header (parse : JsonEnv) (ls ss : Store)
    (optHeaders : HeaderMap) (hopt : optHeaders "Authorization" = none) :
    ((apiRequestHeaders parse ls ss optHeaders "Authorization").isSome
        ↔ (getAuthToken parse ls ss).isSome) ∧
    (∀ t, getAuthToken parse ls ss = some t →
        apiRequestHeaders parse ls ss optHeaders "Authorization"
          = some ("Bearer " ++ t)) ∧
    (∀ k, k ≠ "Authorization" →
        apiRequestHeaders parse ls ss optHeaders k = baseHeaders optHeaders k) ∧
    (getAuthToken parse ls ss = none →
        apiRequestHeaders parse ls ss optHeaders = baseHeaders optHeaders) := by
  unfold apiRequestHeaders requestHeaders
  cases htok : getAuthToken parse ls ss with
  | none =>
      refine ⟨?_, ?_, ?_, fun _ => rfl⟩
      · simp [baseHeaders, hopt]
      · intro t ht; exact absurd ht (by simp)
      · intro k _; rfl
  | some t =>
      refine ⟨?_, ?_, ?_, ?_⟩
      · simp
      · intro t2 ht2
        injection ht2 with h
        subst h
        simp
      · intro k hk; simp [hk]
      · intro h; exact absurd h (by simp)

/-- Witness for apiRequest_auth_header at concrete inputs, in both
directions: with a resolvable credential the Bearer header is present,
and with empty stores the headers are exactly the base headers. -/
theorem apiRequest_auth_header_witness :
    emptyHeaders "Authorization" = none ∧
    getAuthToken demoParse storeWithGood Store.empty = some "t" ∧
    apiRequestHeaders demoParse storeWithGood Store.empty emptyHeaders "Authorization"
      = some ("Bearer " ++ "t") ∧
    apiRequestHeaders demoParse Store.empty Store.empty emptyHeaders
      = baseHeaders emptyHeaders :=
  ⟨rfl, by decide,
    (apiRequest_auth_header demoParse storeWithGood Store.empty emptyHeaders rfl).2.1
      "t" (by decide),
    (apiRequest_auth_header demoParse Store.empty Store.empty emptyHeaders rfl).2.2.2
      (by decide)⟩

/-- Claim C6: among transport-successful responses, the no-content
sentinel is produced exactly for status 204 (for every body, which is
never decoded there), the sentinel is distinct from every value-bearing
success, and every other successful response has its body decoded and
the decoded value returned. -/
theorem apiRequest_success_noContent {α : Type} (dec : String → Option α)
    (parseErr : String → Option ErrBody) (status : Nat) (body : String)
    (hok : responseOk status = true) :
    (apiRequest dec parseErr (FetchResult.response status body) = ApiOutcome.noContent
        ↔ status = 204) ∧
    (∀ v : α, (ApiOutcome.noContent : ApiOutcome α) ≠ ApiOutcome.value v) ∧
    (∀ v, status ≠ 204 → dec body = some v →
        apiRequest dec parseErr (FetchResult.response status body)
          = ApiOutcome.value v) := by
  refine ⟨?_, fun v h => ApiOutcome.noConfusion h, ?_⟩
  · constructor
    · intro h
      by_contra h204
      rcases hdec : dec body with _ | v
      · simp [apiRequest, hok, h204, hdec] at h
      · simp [apiRequest, hok, h204, hdec] at h
    · intro h; subst h; simp [apiRequest, hok]
  · intro v h204 hdec; simp [apiRequest, hok, h204, hdec]

/-- Witness for apiRequest_success_noContent at concrete inputs: a 204
with a nonempty body still yields the sentinel, and a 200 whose body
decodes yields the decoded value. -/
theorem apiRequest_success_noContent_witness :
    responseOk 204 = true ∧
    responseOk 200 = true ∧
    apiRequest (fun s => some s) (fun _ => none) (FetchResult.response 204 "ignored")
      = ApiOutcome.noContent ∧
    apiRequest (fun s => some s) (fun _ => none) (FetchResult.response 200 "payload")
      = ApiOutcome.value "payload" :=
  ⟨by decide, by decide,
    ((apiRequest_success_noContent (fun s => some s) (fun _ => none) 204 "ignored"
        (by decide)).1.mpr rfl),
    ((apiRequest_success_noContent (fun s => some s) (fun _ => none) 200 "payload"
        (by decide)).2.2 "payload" (by decide) rfl)⟩

/-- Claim C7: on every non-2xx response the body is parsed for a
structured error description; when the parsed body carries a detail
string, that string is the thrown message; when the parse fails, the
thrown message is synthesized from the transport status — it is the
fixed fallback string, which mentions the numeric status and is never
empty — and no parse error is thrown in its place. -/
theorem apiRequest_error_message {α : Type} (dec : String → Option α)
    (parseErr : String → Option ErrBody) (status : Nat) (body : String)
    (hfail : responseOk status = false) :
    (∀ e d, parseErr body = some e → e.detail = some d →
        apiRequest dec parseErr (FetchResult.response status body)
          = ApiOutcome.thrown d) ∧
    (parseErr body = none →
        apiRequest dec parseErr (FetchResult.response status body)
          = ApiOutcome.thrown (statusFallback status)) ∧
    statusFallback status = "Request failed with status " ++ toString status ∧
    statusFallback status ≠ "" := by
  refine ⟨?_, ?_, rfl, ?_⟩
  · intro e d hp hd; simp [apiRequest, hfail, hp, errDetailMessage, hd]
  · intro hp; simp [apiRequest, hfail, hp, errDetailMessage, statusFallback]
  · intro h
    have hl : (statusFallback status).length = 0 := by rw [h]; rfl
    rw [statusFallback, String.length_append] at hl
    have h27 : ("Request failed with status ").length = 27 := by decide
    omega

/-- Witness for apiRequest_error_message at a concrete input: a 404
whose body fails to parse yields the synthesized message. -/
theorem apiRequest_error_message_witness :
    responseOk 404 = false ∧
    ((fun _ => (none : Option ErrBody)) "not json" = none) ∧
    apiRequest (fun _ => (none : Option Unit)) (fun _ => none)
        (FetchResult.response 404 "not json")
      = ApiOutcome.thrown (statusFallback 404) ∧
    statusFallback 404 ≠ "" :=
  ⟨by decide, rfl,
    ((apiRequest_error_message (fun _ => (none : Option Unit)) (fun _ => none)
        404 "not json" (by decide)).2.1 rfl),
    ((apiRequest_error_message (fun _ => (none : Option Unit)) (fun _ => none)
        404 "not json" (by decide)).2.2.2)⟩

/-- Claim C8: for every possible content of the mode storage slot, the
initial mode read yields workspace or personal when that exact string
is stored, and personal in every other case — unset or any other
string — and getStoredMode is a total function, so it never throws. -/
theorem getStoredMode_defensive (ls : Store) :
    (ls MODE_STORAGE_KEY = some "workspace" → getStoredMode ls = AppMode.workspace) ∧
    (ls MODE_STORAGE_KEY = some "personal" → getStoredMode ls = AppMode.personal) ∧
    (ls MODE_STORAGE_KEY = none → getStoredMode ls = AppMode.personal) ∧
    (∀ s, ls MODE_STORAGE_KEY = some s → s ≠ "workspace" → s ≠ "personal" →
        getStoredMode ls = AppMode.personal) := by
  refine ⟨?_, ?_, ?_, ?_⟩
  · intro h; simp [getStoredMode, h]
  · intro h; simp [getStoredMode, h]
  · intro h; simp [getStoredMode, h]
  · intro s h h1 h2; simp [getStoredMode, h, h1, h2]

/-- Witness for getStoredMode_defensive at concrete inputs: a store
holding a malformed mode string decodes to personal, and one holding
workspace decodes to workspace. -/
theorem getStoredMode_defensive_witness :
    (Store.set Store.empty MODE_STORAGE_KEY "garbage") MODE_STORAGE_KEY
      = some "garbage" ∧
    getStoredMode (Store.set Store.empty MODE_STORAGE_KEY "garbage")
      = AppMode.personal ∧
    getStoredMode (Store.set Store.empty MODE_STORAGE_KEY "workspace")
      = AppMode.workspace :=
  ⟨by decide,
    (getStoredMode_defensive (Store.set Store.empty MODE_STORAGE_KEY "garbage")).2.2.2
      "garbage" (by decide) (by decide) (by decide),
    (getStoredMode_defensive (Store.set Store.empty MODE_STORAGE_KEY "workspace")).1
      (by decide)⟩

/-- Claim C9: setMode synchronously updates the held mode to the new
value and persists it, a subsequent getStoredMode read yields exactly
that mode (persist and decode round-trip), and no storage key other
than the mode key is touched; setMode is a pure state transformer and
performs no network call. -/
theorem setMode_roundtrip (st : ModeState) (m : AppMode) :
    (setMode st m).mode = m ∧
    getStoredMode (setMode st m).storage = m ∧
    (∀ k, k ≠ MODE_STORAGE_KEY → (setMode st m).storage k = st.storage k) := by
  refine ⟨rfl, ?_, ?_⟩
  · cases m <;> simp [setMode, getStoredMode, Store.set, modeString]
  · intro k hk; simp [setMode, Store.set, hk]

/-- Witness for setMode_roundtrip at a concrete input. -/
theorem setMode_roundtrip_witness :
    (setMode ⟨AppMode.personal, Store.empty⟩ AppMode.workspace).mode
      = AppMode.workspace ∧
    getStoredMode (setMode ⟨AppMode.personal, Store.empty⟩ AppMode.workspace).storage
      = AppMode.workspace ∧
    ("theme" ≠ MODE_STORAGE_KEY ∧
      (setMode ⟨AppMode.personal, Store.empty⟩ AppMode.workspace).storage "theme"
        = Store.empty "theme") :=
  ⟨(setMode_roundtrip ⟨AppMode.personal, Store.empty⟩ AppMode.workspace).1,
    (setMode_roundtrip ⟨AppMode.personal, Store.empty⟩ AppMode.workspace).2.1,
    ⟨by decide,
      (setMode_roundtrip ⟨AppMode.personal, Store.empty⟩ AppMode.workspace).2.2
        "theme" (by decide)⟩⟩

/-- Claim C4: on every send with no active conversation id the
synchronizer issues the create-conversation call first (title omitted)
and adopts its returned id as the target of the chat call; and at the
concrete instance of the claim — create response with id 42, chat
response with conversation id 42 and text hi, starting from the empty
state — the resulting state holds exactly one Conversation, with id 42,
and exactly two messages, one user and one assistant, both attached to
conversation 42. -/
theorem syncSend_autocreate (userId : Nat) (userText mode : String)
    (createResp : Conversation) (chatResp : ChatResponsePayload)
    (st : SyncState) (hactive : st.activeConversationId = none) :
    (syncSend userId userText mode createResp chatResp st).2
      = [ RemoteCall.createConversation userId none
        , RemoteCall.chat userText mode (some createResp.id) ] ∧
    ((syncSend 1 "hello" "personal" conv42 chatResp42
        { conversations := [], messages := [], activeConversationId := none }).1.conversations
      = [conv42] ∧
     conv42.id = 42 ∧
     (syncSend 1 "hello" "personal" conv42 chatResp42
        { conversations := [], messages := [], activeConversationId := none }).1.messages
      = [ { conversation_id := 42, role := Role.user, content := "hello" }
        , { conversation_id := 42, role := Role.assistant, content := "hi" } ] ∧
     (syncSend 1 "hello" "personal" conv42 chatResp42
        { conversations := [], messages := [], activeConversationId := none }).1.activeConversationId
      = some 42) := by
  refine ⟨?_, by decide, by decide, by decide, by decide⟩
  simp [syncSend, hactive]

/-- Witness for syncSend_autocreate at the concrete instance of the
claim itself. -/
theorem syncSend_autocreate_witness :
    ({ conversations := [], messages := []
     , activeConversationId := none } : SyncState).activeConversationId = none ∧
    (syncSend 1 "hello" "personal" conv42 chatResp42
        { conversations := [], messages := [], activeConversationId := none }).2
      = [ RemoteCall.createConversation 1 none
        , RemoteCall.chat "hello" "personal" (some 42) ] :=
  ⟨rfl, by
    have h := (syncSend_autocreate 1 "hello" "personal" conv42 chatResp42
      { conversations := [], messages := [], activeConversationId := none } rfl).1
    simpa [conv42] using h⟩

end VelocityAI
